import Mathlib

/-!
Shallow embedding of the AirQ Express/Mongoose authentication backend
(src/unnamed/part_000): the Mongoose `User` schema with its setters,
validators, pre-save password hashing and unique email index, the JWT
helpers, and the three route handlers `POST /api/auth/register`,
`POST /api/auth/login` and `GET /api/auth/me`.

Modelling choices:
* bcrypt is modelled symbolically: a hash is the pair of the cost factor
  and the hashed plaintext, and `bcrypt.compare` checks the plaintext.
  The hash lives in its own type `HashedPassword`, never in a `String`.
* JWTs are modelled symbolically: a signature is the triple of the signed
  payload, the expiry and the secret (an ideal MAC), so verification with
  the right secret succeeds exactly on untampered, unexpired tokens.
* MongoDB is a list of documents plus an id counter.  `findOne` with a
  defined filter value returns the first exact match; with an `undefined`
  filter value Mongoose drops the key, so the filter is `{}` and the first
  document is returned.  The `unique: true` email index rejects inserts
  whose (normalized) email is already stored.
* Mongoose runs setters (`trim`, `lowercase`) before validation
  (`required`, `minlength` — checked on the plaintext), and the user
  pre-save hook (bcrypt hashing, cost 10) after validation.
  The `required` validators carry the schema's custom messages; the
  `minlength` validator has no custom message, so Mongoose's default
  applies, and that default interpolates the offending value — the
  submitted plaintext password — into the message.
* Times are seconds; `expiresIn: '30d'` adds 30 days of seconds.
-/

/-- The `role` enum of the user schema: `['user', 'admin']`. -/
inductive Role where
  | user
  | admin
deriving DecidableEq, Repr

/-- Symbolic bcrypt hash: records the cost factor and the plaintext it
hashes.  Stored in its own type, so it can never occur among the string
fields of a JSON response. -/
structure HashedPassword where
  cost : Nat
  plain : String
deriving DecidableEq, Repr

/-- Model of `bcrypt.hash(plain, cost)`. -/
def bcryptHash (plain : String) (cost : Nat) : HashedPassword :=
  { cost := cost, plain := plain }

/-- Model of `bcrypt.compare(candidate, hash)`. -/
def bcryptCompare (candidate : String) (h : HashedPassword) : Bool :=
  candidate == h.plain

/-- A persisted user document (the Mongoose `User` model, with the
`timestamps: true` fields). -/
structure User where
  _id : Nat
  firstName : String
  lastName : String
  email : String
  password : HashedPassword
  role : Role
  createdAt : Nat
  updatedAt : Nat
deriving DecidableEq, Repr

/-- The JWT payload signed by `generateAuthToken`: `{ id: this._id, role: this.role }`. -/
structure JwtPayload where
  id : Nat
  role : Role
deriving DecidableEq, Repr

/-- Symbolic JWT signature: an ideal MAC over the payload and expiry under
a secret. -/
structure JwtSig where
  payload : JwtPayload
  exp : Nat
  secret : String
deriving DecidableEq, Repr

/-- A JSON web token: payload, expiry and signature.  A tampered token is
one whose signature does not match its payload/expiry under the server
secret. -/
structure Jwt where
  payload : JwtPayload
  exp : Nat
  sig : JwtSig
deriving DecidableEq, Repr

/-- The hard-coded server secret `JWT_SECRET`. -/
def JWT_SECRET : String := "your_jwt_secret_key"

/-- Seconds in the `'30d'` expiry window of `expiresIn`. -/
def thirtyDaysInSeconds : Nat := 30 * 24 * 60 * 60

/-- Model of `jwt.sign(payload, secret, { expiresIn })`. -/
def jwtSign (p : JwtPayload) (secret : String) (now expiresIn : Nat) : Jwt :=
  { payload := p
    exp := now + expiresIn
    sig := { payload := p, exp := now + expiresIn, secret := secret } }

/-- Model of `jwt.verify(token, secret)` at clock time `now`: returns the
decoded payload, or `none` when the signature is invalid or the token has
expired (in the real code `jwt.verify` then throws). -/
def jwtVerify (t : Jwt) (secret : String) (now : Nat) : Option JwtPayload :=
  if t.sig = { payload := t.payload, exp := t.exp, secret := secret } ∧ now < t.exp then
    some t.payload
  else
    none

/-- Error message produced when `jwt.verify` fails: the signature is
checked first, so a bad signature reports as such even on an expired
token; with a good signature the failure is the expiry. -/
def jwtVerifyError (t : Jwt) (secret : String) ( _now : Nat) : String :=
  if t.sig = { payload := t.payload, exp := t.exp, secret := secret } then
    "jwt expired"
  else
    "invalid signature"

/-- `userSchema.methods.generateAuthToken`: signs `{ id, role }` with
`JWT_SECRET` and a 30-day expiry. -/
def generateAuthToken (u : User) (now : Nat) : Jwt :=
  jwtSign { id := u._id, role := u.role } JWT_SECRET now thirtyDaysInSeconds

/-- The user collection: the stored documents plus the id counter that
models MongoDB ObjectId generation. -/
structure Store where
  users : List User
  nextId : Nat
deriving DecidableEq, Repr

/-- Model of `User.findOne({ email: q })`.  A defined value matches the
first document with exactly that stored email; an `undefined` value is
stripped from the filter by Mongoose, leaving `findOne({})`, which returns
the first document. -/
def findOne? (s : Store) (q : Option String) : Option User :=
  match q with
  | none => s.users.head?
  | some e => s.users.find? (fun u => u.email == e)

/-- Model of `User.findById(id)`. -/
def findById (s : Store) (id : Nat) : Option User :=
  s.users.find? (fun u => u._id == id)

/-- Model of the JS `String.prototype.trim()` that the schema's
`trim: true` setter applies: drop whitespace from both ends.  Defined by
structural recursion over the character list of the string. -/
def jsTrim (s : String) : String :=
  ⟨((s.data.dropWhile Char.isWhitespace).reverse.dropWhile Char.isWhitespace).reverse⟩

/-- Model of the JS `String.prototype.toLowerCase()` that the schema's
`lowercase: true` setter applies. -/
def jsToLower (s : String) : String :=
  ⟨s.data.map Char.toLower⟩

/-- The schema setters on `email`: `trim: true` then `lowercase: true`. -/
def normalizeEmail (e : String) : String :=
  jsToLower (jsTrim e)

/-- Mongoose `required` check for a string path: fails on `undefined` and
on the empty string (after setters). -/
def presentString (v : Option String) : Option String :=
  match v with
  | none => none
  | some s => if s.isEmpty then none else some s

/-- The body of a `POST /api/auth/register` request; each field may be
absent. -/
structure RegisterBody where
  firstName : Option String
  lastName : Option String
  email : Option String
  password : Option String
deriving DecidableEq, Repr

/-- The ways `User.create` can throw: a failed `required` validator, the
`minlength: 5` validator on `password`, or the `unique: true` index on
`email`. -/
inductive CreateError where
  | missingFirstName
  | missingLastName
  | missingEmail
  | missingPassword
  | passwordTooShort (pw : String)
  | duplicateEmail
deriving DecidableEq, Repr

/-- The `error.message` string of each `User.create` failure (validator
messages from the schema; the duplicate-key error comes from MongoDB). -/
def CreateError.message : CreateError → String
  | .missingFirstName => "User validation failed: firstName: Please provide your first name"
  | .missingLastName => "User validation failed: lastName: Please provide your last name"
  | .missingEmail => "User validation failed: email: Please provide your email"
  | .missingPassword => "User validation failed: password: Please provide a password"
  | .passwordTooShort pw =>
      "User validation failed: password: Path `password` (`" ++ pw ++
        "`) is shorter than the minimum allowed length (5)."
  | .duplicateEmail => "E11000 duplicate key error collection"

/-- Model of `User.create({firstName, lastName, email, password})`: setters,
`required` and `minlength` validation on the plaintext, the pre-save bcrypt
hashing with cost 10, the unique email index, and the insert. -/
def User.create (s : Store) (now : Nat) (b : RegisterBody) :
    Except CreateError (User × Store) :=
  match presentString (b.firstName.map jsTrim) with
  | none => .error .missingFirstName
  | some fn =>
    match presentString (b.lastName.map jsTrim) with
    | none => .error .missingLastName
    | some ln =>
      match presentString (b.email.map normalizeEmail) with
      | none => .error .missingEmail
      | some em =>
        match presentString b.password with
        | none => .error .missingPassword
        | some pw =>
          if pw.length < 5 then .error (.passwordTooShort pw)
          else if s.users.any (fun u => u.email == em) then .error .duplicateEmail
          else
            let u : User :=
              { _id := s.nextId
                firstName := fn
                lastName := ln
                email := em
                password := bcryptHash pw 10
                role := Role.user
                createdAt := now
                updatedAt := now }
            .ok (u, { users := s.users ++ [u], nextId := s.nextId + 1 })

/-- The public user projection sent in success responses:
`{ id, firstName, lastName, email, role }` — no password field. -/
structure UserPublic where
  id : Nat
  firstName : String
  lastName : String
  email : String
  role : Role
deriving DecidableEq, Repr

/-- Build the response's `user` object from a document. -/
def User.toPublic (u : User) : UserPublic :=
  { id := u._id
    firstName := u.firstName
    lastName := u.lastName
    email := u.email
    role := u.role }

/-- A JSON response of the three handlers: HTTP status plus the body
fields that ever appear (`success`, and optionally `token`, `user`,
`message`, `error`). -/
structure ApiResponse where
  status : Nat
  success : Bool
  token : Option Jwt
  user : Option UserPublic
  message : Option String
  error : Option String
deriving DecidableEq, Repr

/-- Handler for `POST /api/auth/register` (src/unnamed/part_000 lines
107-151).  Returns the response and the store after the request. -/
def register (s : Store) (now : Nat) (b : RegisterBody) : ApiResponse × Store :=
  match findOne? s b.email with
  | some _ =>
    ({ status := 400, success := false, token := none, user := none,
       message := some "Email is already registered", error := none }, s)
  | none =>
    match User.create s now b with
    | .error e =>
      ({ status := 500, success := false, token := none, user := none,
         message := some "Server error", error := some e.message }, s)
    | .ok (u, s1) =>
      ({ status := 201, success := true, token := some (generateAuthToken u now),
         user := some u.toPublic, message := none, error := none }, s1)

/-- The body of a `POST /api/auth/login` request. -/
structure LoginBody where
  email : Option String
  password : Option String
deriving DecidableEq, Repr

/-- JS falsiness of an optional string field: `undefined` or `""`. -/
def falsy : Option String → Bool
  | none => true
  | some s => s.isEmpty

/-- Handler for `POST /api/auth/login` (src/unnamed/part_000 lines
154-202). -/
def login (s : Store) (now : Nat) (b : LoginBody) : ApiResponse × Store :=
  if falsy b.email || falsy b.password then
    ({ status := 400, success := false, token := none, user := none,
       message := some "Please provide email and password", error := none }, s)
  else
    match findOne? s b.email with
    | none =>
      ({ status := 401, success := false, token := none, user := none,
         message := some "Invalid email or password", error := none }, s)
    | some u =>
      match b.password with
      | none =>
        ({ status := 401, success := false, token := none, user := none,
           message := some "Invalid email or password", error := none }, s)
      | some pw =>
        if bcryptCompare pw u.password then
          ({ status := 200, success := true, token := some (generateAuthToken u now),
             user := some u.toPublic, message := none, error := none }, s)
        else
          ({ status := 401, success := false, token := none, user := none,
             message := some "Invalid email or password", error := none }, s)

/-- A `GET /api/auth/me` request: the `authorization` header, when
present, split at the first space — the scheme text and the part after the
space, which is the (symbolic) token when there is one. -/
structure MeRequest where
  authorization : Option (String × Option Jwt)
deriving Repr

/-- `req.headers.authorization?.split(' ')[1]`. -/
def MeRequest.bearer (r : MeRequest) : Option Jwt :=
  match r.authorization with
  | none => none
  | some (_, t) => t

/-- Handler for `GET /api/auth/me` (src/unnamed/part_000 lines 205-248).
A `jwt.verify` failure (tampered or expired token) throws and is caught by
the top-level catch, producing the 500 response. -/
def me (s : Store) (now : Nat) (r : MeRequest) : ApiResponse × Store :=
  match r.bearer with
  | none =>
    ({ status := 401, success := false, token := none, user := none,
       message := some "Not authorized to access this route", error := none }, s)
  | some t =>
    match jwtVerify t JWT_SECRET now with
    | none =>
      ({ status := 500, success := false, token := none, user := none,
         message := some "Server error", error := some (jwtVerifyError t JWT_SECRET now) }, s)
    | some payload =>
      match findById s payload.id with
      | none =>
        ({ status := 404, success := false, token := none, user := none,
           message := some "User not found", error := none }, s)
      | some u =>
        ({ status := 200, success := true, token := none,
           user := some u.toPublic, message := none, error := none }, s)

/-! ### Helper lemmas -/

theorem presentString_eq_some {v : Option String} {x : String}
    (h : presentString v = some x) : v = some x ∧ x.isEmpty = false := by
  cases v with
  | none => simp [presentString] at h
  | some s =>
    by_cases hs : s.isEmpty = true
    · simp [presentString, hs] at h
    · simp [presentString, hs] at h
      subst h
      exact ⟨rfl, by simpa using hs⟩

theorem find?_append_of_none {α : Type} {p : α → Bool} {l1 l2 : List α}
    (h : l1.find? p = none) : (l1 ++ l2).find? p = l2.find? p := by
  induction l1 with
  | nil => simp
  | cons a l ih =>
    cases hpa : p a with
    | true => simp [List.find?_cons, hpa] at h
    | false =>
      simp only [List.find?_cons, hpa] at h
      simpa [List.find?_cons, hpa] using ih h

theorem create_ok_inv {s : Store} {now : Nat} {b : RegisterBody} {u : User} {s1 : Store}
    (h : User.create s now b = .ok (u, s1)) :
    s1.users = s.users ++ [u] ∧ s1.nextId = s.nextId + 1 ∧ u._id = s.nextId ∧
    u.role = Role.user ∧ (∀ v ∈ s.users, v.email ≠ u.email) ∧
    (∃ e, b.email = some e ∧ u.email = normalizeEmail e) ∧
    (∃ pw, b.password = some pw ∧ u.password = bcryptHash pw 10 ∧ 5 ≤ pw.length) ∧
    u.createdAt = now := by
  unfold User.create at h
  cases hfn : presentString (b.firstName.map jsTrim) with
  | none => simp [hfn] at h
  | some fn =>
  simp only [hfn] at h
  cases hln : presentString (b.lastName.map jsTrim) with
  | none => simp [hln] at h
  | some ln =>
  simp only [hln] at h
  cases hem : presentString (b.email.map normalizeEmail) with
  | none => simp [hem] at h
  | some em =>
  simp only [hem] at h
  cases hpw : presentString b.password with
  | none => simp [hpw] at h
  | some pw =>
  simp only [hpw] at h
  by_cases hlen : pw.length < 5
  · simp [hlen] at h
  · simp only [if_neg hlen] at h
    by_cases hdup : s.users.any (fun v => v.email == em) = true
    · simp [hdup] at h
    · simp only [hdup, if_false, Bool.false_eq_true] at h
      simp only [Except.ok.injEq, Prod.mk.injEq] at h
      obtain ⟨hu, hs1⟩ := h
      subst hu
      subst hs1
      refine ⟨rfl, rfl, rfl, rfl, ?_, ?_, ?_, rfl⟩
      · intro v hv hvem
        simp only [List.any_eq_true] at hdup
        exact hdup ⟨v, hv, by simp [hvem]⟩
      · obtain ⟨hbe, -⟩ := presentString_eq_some hem
        obtain ⟨e, he, hne⟩ := Option.map_eq_some'.mp hbe
        exact ⟨e, he, hne.symm⟩
      · obtain ⟨hbp, -⟩ := presentString_eq_some hpw
        exact ⟨pw, hbp, rfl, Nat.not_lt.mp hlen⟩

theorem findOne?_mem {s : Store} {q : Option String} {u : User}
    (h : findOne? s q = some u) : u ∈ s.users := by
  unfold findOne? at h
  cases q with
  | none =>
    cases hl : s.users with
    | nil => simp [hl] at h
    | cons a l =>
      rw [hl] at h
      simp only [List.head?, Option.some.injEq] at h
      rw [← h]
      exact List.mem_cons_self a l
  | some e => exact List.mem_of_find?_eq_some h

/-! ### Concrete fixtures used by witnesses and counterexamples -/

/-- A well-formed registration body with an email that the setters change. -/
def adaBody : RegisterBody :=
  ⟨some "Ada", some "Lovelace", some " Ada@Example.COM ", some "secret1"⟩

/-- The empty user collection. -/
def emptyStore : Store := ⟨[], 0⟩

/-- The document `register emptyStore 100 adaBody` persists. -/
def adaUser : User :=
  ⟨0, "Ada", "Lovelace", "ada@example.com", bcryptHash "secret1" 10, Role.user, 100, 100⟩

/-- The store after that registration. -/
def adaStore : Store := ⟨[adaUser], 1⟩

/-- A forged token: correct payload and expiry, but signed with a secret
other than `JWT_SECRET`. -/
def tamperedToken : Jwt :=
  { payload := ⟨0, Role.user⟩, exp := 2592200,
    sig := ⟨⟨0, Role.user⟩, 2592200, "attacker_secret"⟩ }

/-- A registration body whose password fails the `minlength: 5` validator. -/
def shortPwBody : RegisterBody :=
  ⟨some "Ada", some "Lovelace", some "ada@example.com", some "abc"⟩

/-! ### Claims -/

/-- C8: the login and `/me` handlers never modify the user collection — the
store after the request is the store before it — and the register handler
either leaves the store unchanged or appends exactly one new user; no
handler updates or deletes a stored user. -/
theorem c8_login_me_never_modify_store (s : Store) (now : Nat) (lb : LoginBody)
    (r : MeRequest) (rb : RegisterBody) :
    (login s now lb).2 = s ∧ (me s now r).2 = s ∧
      ((register s now rb).2.users = s.users ∨
        ∃ u, (register s now rb).2.users = s.users ++ [u]) := by
  refine ⟨?_, ?_, ?_⟩
  · unfold login
    split
    · rfl
    · split
      · rfl
      · split
        · rfl
        · split <;> rfl
  · unfold me
    split
    · rfl
    · split
      · rfl
      · split <;> rfl
  · unfold register
    split
    · left; rfl
    · split
      · left; rfl
      · next u s1 heq =>
        exact Or.inr ⟨u, (create_ok_inv heq).1⟩

/-- C3: when some stored user already has the submitted email, a second
registration with that same email yields the conflict response — status
400, `success: false`, the duplicate-email message, no token, no user
object — and the store is unchanged, so no user is created. -/
theorem c3_duplicate_email_conflict (s : Store) (now : Nat) (b : RegisterBody)
    (e : String) (u : User) (hmem : u ∈ s.users) (hemail : u.email = e)
    (hbody : b.email = some e) :
    (register s now b).1.status = 400 ∧ (register s now b).1.success = false ∧
      (register s now b).1.message = some "Email is already registered" ∧
      (register s now b).1.token = none ∧ (register s now b).1.user = none ∧
      (register s now b).2 = s := by
  rcases hv : findOne? s b.email with _ | v
  · exfalso
    rw [hbody] at hv
    unfold findOne? at hv
    rw [List.find?_eq_none] at hv
    exact absurd (by simp [hemail]) (hv u hmem)
  · unfold register
    rw [hv]
    simp

theorem c3_duplicate_email_conflict_witness :
    (register adaStore 400 ⟨some "A", some "B", some "ada@example.com", some "secret2"⟩).1.status = 400 ∧
      (register adaStore 400 ⟨some "A", some "B", some "ada@example.com", some "secret2"⟩).1.success = false ∧
      (register adaStore 400 ⟨some "A", some "B", some "ada@example.com", some "secret2"⟩).1.message =
        some "Email is already registered" ∧
      (register adaStore 400 ⟨some "A", some "B", some "ada@example.com", some "secret2"⟩).1.token = none ∧
      (register adaStore 400 ⟨some "A", some "B", some "ada@example.com", some "secret2"⟩).1.user = none ∧
      (register adaStore 400 ⟨some "A", some "B", some "ada@example.com", some "secret2"⟩).2 = adaStore :=
  c3_duplicate_email_conflict adaStore 400 _ "ada@example.com" adaUser (by decide)
    (by decide) (by decide)

/-- C9: the register handler never reads a role from the request body, so
the schema default applies: the user object of a registration response
always has role `user`, and every user the handler adds to the store has
role `user` — the `admin` role is unreachable through registration. -/
theorem c9_registered_role_is_user (s : Store) (now : Nat) (b : RegisterBody) :
    (∀ up, (register s now b).1.user = some up → up.role = Role.user) ∧
    (∀ u, u ∈ (register s now b).2.users → u ∈ s.users ∨ u.role = Role.user) := by
  unfold register
  split
  · refine ⟨?_, ?_⟩
    · intro up h
      simp at h
    · intro u hu
      exact Or.inl hu
  · split
    · refine ⟨?_, ?_⟩
      · intro up h
        simp at h
      · intro u hu
        exact Or.inl hu
    · next u s1 heq =>
      obtain ⟨husers, -, -, hrole, -⟩ := create_ok_inv heq
      refine ⟨?_, ?_⟩
      · intro up h
        simp only [Option.some.injEq] at h
        subst h
        simp [User.toPublic, hrole]
      · intro v hv
        simp only at hv
        rw [husers] at hv
        rcases List.mem_append.mp hv with h | h
        · exact Or.inl h
        · right
          simp only [List.mem_singleton] at h
          subst h
          exact hrole

theorem c9_registered_role_is_user_witness :
    (⟨0, "Ada", "Lovelace", "ada@example.com", Role.user⟩ : UserPublic).role = Role.user :=
  (c9_registered_role_is_user emptyStore 100 adaBody).1
    ⟨0, "Ada", "Lovelace", "ada@example.com", Role.user⟩ (by decide)

/-- The claim's failure condition for login, written from the spec's words:
the email field is missing, the password field is missing, no user with
the given email exists, or the password comparison against the stored hash
fails.  A missing field is one that is absent or empty (the handler's JS
falsiness check `!email || !password`). -/
def loginFailCond (s : Store) (b : LoginBody) : Bool :=
  match b.email, b.password with
  | some e, some pw =>
    e.isEmpty || pw.isEmpty ||
      (match findOne? s (some e) with
       | none => true
       | some u => !(bcryptCompare pw u.password))
  | _, _ => true

/-- C4: login fails — with an error response, status 400 or 401 and
`success: false` — exactly when the email field is missing, the password
field is missing, no user with the given email exists, or the password
comparison against the stored hash fails; in every such case no token is
issued, and in the remaining case a token is issued. -/
theorem c4_login_failure_characterization (s : Store) (now : Nat) (b : LoginBody) :
    ((login s now b).1.success = false ↔ loginFailCond s b = true) ∧
      ((login s now b).1.success = false →
        (login s now b).1.token = none ∧
          ((login s now b).1.status = 400 ∨ (login s now b).1.status = 401)) ∧
      ((login s now b).1.success = true → ∃ t, (login s now b).1.token = some t) := by
  unfold login loginFailCond falsy
  cases b.email with
  | none => simp
  | some e =>
    cases b.password with
    | none => simp
    | some pw =>
      by_cases he : e.isEmpty
      · simp [he]
      · by_cases hp : pw.isEmpty
        · simp [he, hp]
        · simp only [he, hp, Bool.or_false, Bool.false_or, Bool.or_self, if_neg,
            Bool.false_eq_true, not_false_eq_true, reduceIte]
          cases hf : findOne? s (some e) with
          | none => simp
          | some u =>
            cases hc : bcryptCompare pw u.password <;> simp [hc]

theorem c4_login_failure_characterization_witness :
    (login adaStore 200 ⟨some "ada@example.com", some "wrong"⟩).1.token = none ∧
      ((login adaStore 200 ⟨some "ada@example.com", some "wrong"⟩).1.status = 400 ∨
        (login adaStore 200 ⟨some "ada@example.com", some "wrong"⟩).1.status = 401) :=
  (c4_login_failure_characterization adaStore 200 ⟨some "ada@example.com", some "wrong"⟩).2.1
    (by decide)

/-- C6: a registration whose raw duplicate check finds no user and whose
body passes schema validation (so the creation succeeds) appends exactly
one user, whose stored password is the bcrypt hash of the submitted
plaintext with cost factor 10, and responds 201 with a signed token and a
user object holding exactly the public fields id, firstName, lastName,
email and role. -/
theorem c6_register_persists_hashed_user (s : Store) (now : Nat) (b : RegisterBody)
    (u : User) (s1 : Store)
    (hfree : findOne? s b.email = none)
    (hok : User.create s now b = .ok (u, s1)) :
    register s now b =
      ({ status := 201, success := true, token := some (generateAuthToken u now),
         user := some u.toPublic, message := none, error := none }, s1) ∧
      s1.users = s.users ++ [u] ∧
      (∃ pw, b.password = some pw ∧ u.password = bcryptHash pw 10) ∧
      u.toPublic =
        { id := u._id, firstName := u.firstName, lastName := u.lastName,
          email := u.email, role := u.role } := by
  obtain ⟨husers, -, -, -, -, -, hpw, -⟩ := create_ok_inv hok
  refine ⟨?_, husers, ?_, rfl⟩
  · unfold register
    rw [hfree, hok]
  · obtain ⟨pw, hbp, hupw, -⟩ := hpw
    exact ⟨pw, hbp, hupw⟩

theorem c6_register_persists_hashed_user_witness :
    register emptyStore 100 adaBody =
      ({ status := 201, success := true, token := some (generateAuthToken adaUser 100),
         user := some adaUser.toPublic, message := none, error := none }, adaStore) ∧
      adaStore.users = emptyStore.users ++ [adaUser] ∧
      (∃ pw, adaBody.password = some pw ∧ adaUser.password = bcryptHash pw 10) ∧
      adaUser.toPublic =
        { id := adaUser._id, firstName := adaUser.firstName, lastName := adaUser.lastName,
          email := adaUser.email, role := adaUser.role } :=
  c6_register_persists_hashed_user emptyStore 100 adaBody adaUser adaStore (by rfl) (by rfl)

/-- C10: the duplicate-email guard queries the store with the raw submitted
string — the conflict branch is taken exactly when some stored email equals
`req.body.email` verbatim — while the email a successful creation persists
is the trimmed then lowercased form of the submitted one. -/
theorem c10_raw_duplicate_check_normalized_persist (s : Store) (now : Nat) (b : RegisterBody) :
    ((register s now b).1.status = 400 ↔ (findOne? s b.email).isSome = true) ∧
      (∀ e u s1, b.email = some e → User.create s now b = .ok (u, s1) →
        u.email = jsToLower (jsTrim e)) := by
  constructor
  · unfold register
    cases hf : findOne? s b.email with
    | some v => simp
    | none =>
      cases hc : User.create s now b with
      | error e => simp
      | ok p =>
        obtain ⟨u, s1⟩ := p
        simp
  · intro e u s1 hbe hok
    obtain ⟨-, -, -, -, -, hem, -, -⟩ := create_ok_inv hok
    obtain ⟨e2, hbe2, hue⟩ := hem
    rw [hbe] at hbe2
    injection hbe2 with h2
    subst h2
    exact hue

theorem c10_raw_duplicate_check_normalized_persist_witness :
    adaUser.email = jsToLower (jsTrim " Ada@Example.COM ") :=
  (c10_raw_duplicate_check_normalized_persist emptyStore 100 adaBody).2
    " Ada@Example.COM " adaUser adaStore (by rfl) (by rfl)

theorem jwtVerify_jwtSign {p : JwtPayload} {sec : String} {now eIn n : Nat}
    (h : n < now + eIn) : jwtVerify (jwtSign p sec now eIn) sec n = some p := by
  simp [jwtVerify, jwtSign, h]

/-- C2: every token a successful login returns is `generateAuthToken` of a
stored user at the request time — signed with the server secret
`JWT_SECRET`, expiring 30 days later, its payload the user's id and role —
and verifying, before expiry, the token issued by a login against a store
that a registration produced yields exactly the registered user's id and
role. -/
theorem c2_login_token_signed_and_roundtrip :
    (∀ s now b t, (login s now b).1.token = some t →
      ∃ u, u ∈ s.users ∧ t = generateAuthToken u now ∧
        t.sig = { payload := { id := u._id, role := u.role },
                  exp := now + thirtyDaysInSeconds, secret := JWT_SECRET } ∧
        t.exp = now + thirtyDaysInSeconds ∧
        t.payload = { id := u._id, role := u.role } ∧
        (login s now b).1.user = some u.toPublic) ∧
    (∀ s0 now0 b0 u s1 now1 pw t n,
      User.create s0 now0 b0 = .ok (u, s1) →
      (login s1 now1 ⟨some u.email, some pw⟩).1.token = some t →
      n < t.exp →
      jwtVerify t JWT_SECRET n = some { id := u._id, role := u.role }) := by
  constructor
  · intro s now b t h
    unfold login at h
    cases hfal : (falsy b.email || falsy b.password) with
    | true => simp [hfal] at h
    | false =>
      simp only [hfal, Bool.false_eq_true, if_neg, reduceIte] at h
      cases hfo : findOne? s b.email with
      | none => simp [hfo] at h
      | some u =>
        simp only [hfo] at h
        cases hbp : b.password with
        | none => simp [hbp] at h
        | some pw =>
          simp only [hbp] at h
          cases hcmp : bcryptCompare pw u.password with
          | false => simp [hcmp] at h
          | true =>
            simp only [hcmp, reduceIte] at h
            simp only [Option.some.injEq] at h
            refine ⟨u, findOne?_mem hfo, h.symm, ?_, ?_, ?_, ?_⟩
            · rw [← h]; rfl
            · rw [← h]; rfl
            · rw [← h]; rfl
            · have hfal2 := hfal
              rw [Bool.or_eq_false_iff] at hfal2
              obtain ⟨hfe, hfp⟩ := hfal2
              rw [hbp] at hfp
              simp [login, hfo, hbp, hcmp, hfe, hfp]
  · intro s0 now0 b0 u s1 now1 pw t n hok hlog hn
    obtain ⟨husers, -, -, -, hnodup, -, -, -⟩ := create_ok_inv hok
    have hpre : s0.users.find? (fun v => v.email == u.email) = none := by
      rw [List.find?_eq_none]
      intro v hv
      simp [hnodup v hv]
    have hfind : findOne? s1 (some u.email) = some u := by
      show s1.users.find? (fun v => v.email == u.email) = some u
      rw [husers, find?_append_of_none hpre]
      simp [List.find?_cons]
    unfold login at hlog
    simp only [falsy] at hlog
    cases hue : (falsy (some u.email) || falsy (some pw)) with
    | true =>
      simp only [falsy] at hue
      simp [hue] at hlog
    | false =>
      simp only [falsy] at hue
      simp only [hue, Bool.false_eq_true, reduceIte] at hlog
      simp only [hfind] at hlog
      cases hcmp : bcryptCompare pw u.password with
      | false => simp [hcmp] at hlog
      | true =>
        simp only [hcmp, reduceIte, Option.some.injEq] at hlog
        rw [← hlog] at hn ⊢
        exact jwtVerify_jwtSign hn

theorem c2_login_token_signed_and_roundtrip_witness :
    jwtVerify (generateAuthToken adaUser 200) JWT_SECRET 300 =
      some { id := adaUser._id, role := adaUser.role } :=
  c2_login_token_signed_and_roundtrip.2 emptyStore 100 adaBody adaUser adaStore 200
    "secret1" (generateAuthToken adaUser 200) 300 (by rfl) (by decide) (by decide)

theorem register_shape (s : Store) (now : Nat) (b : RegisterBody) :
    register s now b =
      ({ status := 400, success := false, token := none, user := none,
         message := some "Email is already registered", error := none }, s) ∨
    (∃ e : CreateError, register s now b =
      ({ status := 500, success := false, token := none, user := none,
         message := some "Server error", error := some e.message }, s)) ∨
    (∃ u s1, User.create s now b = .ok (u, s1) ∧ register s now b =
      ({ status := 201, success := true, token := some (generateAuthToken u now),
         user := some u.toPublic, message := none, error := none }, s1)) := by
  unfold register
  cases hf : findOne? s b.email with
  | some v => left; rfl
  | none =>
    cases hc : User.create s now b with
    | error e => right; left; exact ⟨e, rfl⟩
    | ok p =>
      obtain ⟨u, s1⟩ := p
      right; right; exact ⟨u, s1, rfl, rfl⟩

theorem login_shape (s : Store) (now : Nat) (b : LoginBody) :
    login s now b =
      ({ status := 400, success := false, token := none, user := none,
         message := some "Please provide email and password", error := none }, s) ∨
    login s now b =
      ({ status := 401, success := false, token := none, user := none,
         message := some "Invalid email or password", error := none }, s) ∨
    (∃ u, findOne? s b.email = some u ∧ login s now b =
      ({ status := 200, success := true, token := some (generateAuthToken u now),
         user := some u.toPublic, message := none, error := none }, s)) := by
  unfold login
  cases hfal : (falsy b.email || falsy b.password) with
  | true => left; simp
  | false =>
    simp only [Bool.false_eq_true, reduceIte]
    cases hfo : findOne? s b.email with
    | none => right; left; rfl
    | some u =>
      cases hbp : b.password with
      | none => right; left; rfl
      | some pw =>
        cases hcmp : bcryptCompare pw u.password with
        | false => right; left; simp [hcmp]
        | true => right; right; exact ⟨u, rfl, by simp [hcmp]⟩

theorem me_shape (s : Store) (now : Nat) (r : MeRequest) :
    me s now r =
      ({ status := 401, success := false, token := none, user := none,
         message := some "Not authorized to access this route", error := none }, s) ∨
    (∃ t, r.bearer = some t ∧ me s now r =
      ({ status := 500, success := false, token := none, user := none,
         message := some "Server error", error := some (jwtVerifyError t JWT_SECRET now) }, s)) ∨
    me s now r =
      ({ status := 404, success := false, token := none, user := none,
         message := some "User not found", error := none }, s) ∨
    (∃ (p : JwtPayload) (u : User), findById s p.id = some u ∧ me s now r =
      ({ status := 200, success := true, token := none, user := some u.toPublic,
         message := none, error := none }, s)) := by
  cases hb : r.bearer with
  | none => left; simp [me, hb]
  | some t =>
    cases hv : jwtVerify t JWT_SECRET now with
    | none => right; left; exact ⟨t, rfl, by simp [me, hb, hv]⟩
    | some p =>
      cases hf : findById s p.id with
      | none => right; right; left; simp [me, hb, hv, hf]
      | some u => right; right; right; exact ⟨p, u, hf, by simp [me, hb, hv, hf]⟩

/-- C5 (amended): the `/me` handler characterized per token state.  A
missing token is rejected 401 unauthorized; a token whose verification
fails — tampered signature or past expiry — makes `jwt.verify` throw, so
the catch returns a 500 server-error rejection (not 401/404); a verified
token whose user id matches no stored user is rejected 404 not-found; a
verified token of a stored user returns that user's public fields; every
unsuccessful response carries no user data. -/
theorem c5_me_rejections_amended (s : Store) (now : Nat) (r : MeRequest) :
    (r.bearer = none →
      (me s now r).1 =
        ⟨401, false, none, none, some "Not authorized to access this route", none⟩) ∧
    (∀ t, r.bearer = some t → jwtVerify t JWT_SECRET now = none →
      (me s now r).1 =
        ⟨500, false, none, none, some "Server error",
          some (jwtVerifyError t JWT_SECRET now)⟩) ∧
    (∀ t p, r.bearer = some t → jwtVerify t JWT_SECRET now = some p → findById s p.id = none →
      (me s now r).1 = ⟨404, false, none, none, some "User not found", none⟩) ∧
    (∀ t p u, r.bearer = some t → jwtVerify t JWT_SECRET now = some p → findById s p.id = some u →
      (me s now r).1 = ⟨200, true, none, some u.toPublic, none, none⟩) ∧
    ((me s now r).1.success = false → (me s now r).1.user = none) := by
  refine ⟨?_, ?_, ?_, ?_, ?_⟩
  · intro hb
    simp only [me, hb]
  · intro t hb hv
    simp only [me, hb, hv]
  · intro t p hb hv hf
    simp only [me, hb, hv, hf]
  · intro t p u hb hv hf
    simp only [me, hb, hv, hf]
  · intro hsf
    rcases me_shape s now r with h | ⟨t, -, h⟩ | h | ⟨p, u, -, h⟩ <;>
      rw [h] at hsf ⊢ <;> simp at hsf

/-- C5 counterexample: for a token with a forged signature the handler
returns neither an unauthorized (401) nor a not-found (404) rejection, as
the claim states, but a 500 server error (though indeed no user data). -/
theorem c5_me_rejections_counterexample :
    tamperedToken.sig.secret ≠ JWT_SECRET ∧
    (me adaStore 300 ⟨some ("Bearer", some tamperedToken)⟩).1.status ≠ 401 ∧
    (me adaStore 300 ⟨some ("Bearer", some tamperedToken)⟩).1.status ≠ 404 ∧
    (me adaStore 300 ⟨some ("Bearer", some tamperedToken)⟩).1.status = 500 ∧
    (me adaStore 300 ⟨some ("Bearer", some tamperedToken)⟩).1.user = none := by
  decide

theorem c5_me_rejections_amended_witness :
    (me adaStore 300 ⟨some ("Bearer", some tamperedToken)⟩).1 =
      ⟨500, false, none, none, some "Server error",
        some (jwtVerifyError tamperedToken JWT_SECRET 300)⟩ :=
  (c5_me_rejections_amended adaStore 300 ⟨some ("Bearer", some tamperedToken)⟩).2.1
    tamperedToken (by rfl) (by decide)

/-- C7 (amended): besides the always-present boolean `success`, the only
fields a response body can carry are `token`, `user`, `message` and — in
the 500 catch-branch responses only, alongside `message: 'Server error'` —
an `error` field; login never reaches its catch, so its responses never
carry `error`. -/
theorem c7_envelope_amended :
    (∀ s now b, (register s now b).1.error ≠ none →
      (register s now b).1.status = 500 ∧ (register s now b).1.success = false ∧
        (register s now b).1.message = some "Server error") ∧
    (∀ s now b, (login s now b).1.error = none) ∧
    (∀ s now r, (me s now r).1.error ≠ none →
      (me s now r).1.status = 500 ∧ (me s now r).1.success = false ∧
        (me s now r).1.message = some "Server error") := by
  refine ⟨?_, ?_, ?_⟩
  · intro s now b h
    rcases register_shape s now b with hr | ⟨e, hr⟩ | ⟨u, s1, -, hr⟩ <;> rw [hr] at h ⊢
    · cases h rfl
    · exact ⟨rfl, rfl, rfl⟩
    · cases h rfl
  · intro s now b
    rcases login_shape s now b with hr | hr | ⟨u, -, hr⟩ <;> rw [hr]
  · intro s now r h
    rcases me_shape s now r with hr | ⟨t, -, hr⟩ | hr | ⟨p, u, -, hr⟩ <;> rw [hr] at h ⊢
    · cases h rfl
    · exact ⟨rfl, rfl, rfl⟩
    · cases h rfl
    · cases h rfl

/-- C7 counterexample: a registration whose password fails the
`minlength: 5` validator lands in the catch branch, whose JSON body
carries an `error` field — a field outside the claimed `{success, token?,
user?, message?}` envelope. -/
theorem c7_envelope_counterexample :
    (register emptyStore 100 shortPwBody).1.error ≠ none ∧
    (register emptyStore 100 shortPwBody).1.error =
      some ("User validation failed: password: Path `password` (`abc`) " ++
        "is shorter than the minimum allowed length (5).") ∧
    (register emptyStore 100 shortPwBody).1.status = 500 := by
  decide

theorem c7_envelope_amended_witness :
    (register emptyStore 100 shortPwBody).1.status = 500 ∧
      (register emptyStore 100 shortPwBody).1.success = false ∧
      (register emptyStore 100 shortPwBody).1.message = some "Server error" :=
  c7_envelope_amended.1 emptyStore 100 shortPwBody (by decide)

/-- C1: code bug — the spec's invariant that the password is never present
in any JSON response (which the success branches honor: they send the
password-free projection) is violated by the register catch branch, which
sends `error.message` verbatim.  The schema's `minlength: 5` validator has
no custom message, so Mongoose's default applies, and that default
interpolates the offending value: registering a fresh email with the
3-character password "abc" yields a 500 response whose `error` field
contains the submitted plaintext password. -/
theorem c1_password_leak_on_short_password :
    shortPwBody.password = some "abc" ∧
    (register emptyStore 100 shortPwBody).1.status = 500 ∧
    (register emptyStore 100 shortPwBody).1.error =
      some ("User validation failed: password: Path `password` (`" ++ "abc" ++
        "`) is shorter than the minimum allowed length (5).") := by
  decide
